import Mathlib

/-!
Shallow embedding of the smolagents deep-research launcher repository.

The repository has two entry-point variants:
* `src/run.py` (here namespace `Root`): non-singleton agent construction,
  a log-capture sink (`ListHandler`, `agent_logs`, `log_lock`), and a CLI
  `main` that prints the answer.
* `src/examples/open_deep_research/run.py` (here namespace `ODR`):
  singleton agent construction via the global `agent_instance`, a
  `ThreadPoolExecutor` invocation wrapper, and an `async_run_agent` helper.
* `src/app.py` (here namespace `App`): the Gradio UI shell with `set_keys`
  and `get_answer`.

Pure data and control flow are embedded as Lean functions; the mutable
singleton is explicit state passing; Python object identity is modelled by
an allocation counter threaded through construction; the lock discipline of
the log buffer is modelled as a step trace tagged by the lock state.
The agent run loop itself lives in the external smolagents framework and is
abstracted as a function argument.
-/

/-! ## Log capture sink (src/run.py lines 41-61, src/app.py get_answer) -/

/-- A logging record as seen by the formatter
`%(asctime)s - %(levelname)s - %(message)s`. -/
structure LogRecord where
  asctime : String
  levelname : String
  message : String
deriving DecidableEq, Repr

/-- The formatter applied by both handlers in src/run.py line 37. -/
def formatRecord (r : LogRecord) : String :=
  r.asctime ++ " - " ++ r.levelname ++ " - " ++ r.message

/-- `ListHandler.emit`: formats the record and appends it to the list
(src/run.py lines 53-56). -/
def emit (buf : List String) (r : LogRecord) : List String :=
  buf ++ [formatRecord r]

/-- `agent_logs.clear()` as performed at the start of `get_answer`
(src/app.py line 67). -/
def clearLogs (_ : List String) : List String := []

/-- The drain performed by `get_answer`: `"\n".join(agent_logs)`
(src/app.py line 71). -/
def joinLogs (buf : List String) : String :=
  String.intercalate "\n" buf

/-- Primitive steps of the operations touching the shared log buffer. -/
inductive LogStep where
  | acquire
  | release
  | formatStep
  | clearBuf
  | appendBuf
  | copyBuf
  | runAgent
deriving DecidableEq, Repr

/-- Steps that read or mutate the shared buffer. -/
def accessesBuffer : LogStep → Bool
  | LogStep.clearBuf => true
  | LogStep.appendBuf => true
  | LogStep.copyBuf => true
  | _ => false

/-- Walk a step list tracking whether `log_lock` is held, returning every
buffer-access step paired with the lock state at that step. -/
def accessesWithLock : Bool → List LogStep → List (LogStep × Bool)
  | _, [] => []
  | _, LogStep.acquire :: rest => accessesWithLock true rest
  | _, LogStep.release :: rest => accessesWithLock false rest
  | held, s :: rest =>
      if accessesBuffer s then (s, held) :: accessesWithLock held rest
      else accessesWithLock held rest

/-- Buffer accesses of an operation, starting with the lock free. -/
def lockedAccesses (steps : List LogStep) : List (LogStep × Bool) :=
  accessesWithLock false steps

/-- Whether every buffer access of the operation happens under the lock. -/
def allAccessesLocked (steps : List LogStep) : Bool :=
  (lockedAccesses steps).all (fun p => p.2)

/-- Step trace of `ListHandler.emit` (src/run.py lines 53-56): the lock is
acquired, the record is formatted and appended, the lock is released. -/
def emit_steps : List LogStep :=
  [LogStep.acquire, LogStep.formatStep, LogStep.appendBuf, LogStep.release]

/-- Step trace of `get_answer` (src/app.py lines 66-73): the buffer is
cleared with no lock held, the agent runs, then the copy (join) happens
under the lock. -/
def get_answer_steps : List LogStep :=
  [LogStep.clearBuf, LogStep.runAgent, LogStep.acquire, LogStep.copyBuf,
   LogStep.release]

/-! ## Agent construction (both run.py variants) -/

/-- The constructed manager-agent graph: the configuration fixed by
`create_agent` plus an allocation identifier standing for Python object
identity (each construction yields a fresh object). Temperature 0.7 is
stored in tenths to stay in integer arithmetic. -/
structure AgentHandle where
  oid : Nat
  modelId : String
  reasoningEffort : Option String
  maxCompletionTokens : Nat
  temperatureTenths : Nat
  managerMaxSteps : Nat
  searchMaxSteps : Nat
  verbosityLevel : Nat
deriving DecidableEq, Repr

/-- Agent-graph construction common to both variants: model params
(`max_completion_tokens := 4096`, `temperature := 0.7`,
`reasoning_effort := "high"` iff the model is `o1`), search agent with
`max_steps := 10`, manager with `max_steps := 12`. The variants differ in
`verbosity_level` (2 in src/run.py, 1 in the open_deep_research variant). -/
def build_agent (verbosity : Nat) (oid : Nat) (model_id : String) : AgentHandle :=
  { oid := oid
    modelId := model_id
    reasoningEffort := if model_id = "o1" then some "high" else none
    maxCompletionTokens := 4096
    temperatureTenths := 7
    managerMaxSteps := 12
    searchMaxSteps := 10
    verbosityLevel := verbosity }

namespace Root

/-- `create_agent` of src/run.py lines 162-239: constructs and returns a
fresh agent every call. `nextOid` is the allocation counter. -/
def create_agent (nextOid : Nat) (model_id : String) : AgentHandle × Nat :=
  (build_agent 2 nextOid model_id, nextOid + 1)

end Root

namespace ODR

/-- Process state of the singleton variant: the global `agent_instance`
(src/examples/open_deep_research/run.py line 100) plus the allocation
counter. -/
structure SingletonState where
  agent_instance : Option AgentHandle
  nextOid : Nat
deriving DecidableEq, Repr

/-- State at process start: `agent_instance = None`, nothing allocated. -/
def initState : SingletonState := { agent_instance := none, nextOid := 0 }

/-- `create_agent` of src/examples/open_deep_research/run.py lines 129-205:
if `agent_instance` is None, build the graph and store it; otherwise return
the stored handle unchanged, whatever `model_id` was passed. -/
def create_agent (st : SingletonState) (model_id : String) :
    AgentHandle × SingletonState :=
  match st.agent_instance with
  | some a => (a, st)
  | none =>
      let a := build_agent 1 st.nextOid model_id
      (a, { agent_instance := some a, nextOid := st.nextOid + 1 })

/-- A sequence of calls to the singleton accessor, returning the handles
in order together with the final state. -/
def runCalls : SingletonState → List String → List AgentHandle × SingletonState
  | st, [] => ([], st)
  | st, mid :: rest =>
      ((create_agent st mid).1 :: (runCalls (create_agent st mid).2 rest).1,
       (runCalls (create_agent st mid).2 rest).2)

end ODR

/-! ## Browser configuration (src/run.py lines 113-133 and the
open_deep_research twin, lines 74-94) -/

/-- The `request_kwargs` dictionary handed to the HTTP client. -/
structure RequestKwargs where
  user_agent : String
  timeout : Nat
  max_retries : Nat
deriving DecidableEq, Repr

/-- The `BROWSER_CONFIG` dictionary. -/
structure BrowserConfig where
  viewport_size : Nat
  downloads_folder : String
  request_kwargs : RequestKwargs
  serpapi_key : Option String
deriving DecidableEq, Repr

/-- The User-Agent string shared by both variants. -/
def USER_AGENT : String :=
  "Mozilla/5.0 (Windows NT 10.0; Win64; x64) AppleWebKit/537.36 (KHTML, like Gecko) Chrome/119.0.0.0 Safari/537.36 Edg/119.0.0.0"

/-- The browser tool adapter, which stores the configuration it is
constructed with (`SimpleTextBrowser(**BROWSER_CONFIG)`). -/
structure SimpleTextBrowser where
  config : BrowserConfig
deriving DecidableEq, Repr

namespace Root

/-- `BROWSER_CONFIG` of src/run.py lines 121-130; the serpapi key is read
from the environment at module load. -/
def BROWSER_CONFIG (serpapi : Option String) : BrowserConfig :=
  { viewport_size := 5120
    downloads_folder := "downloads_folder"
    request_kwargs := { user_agent := USER_AGENT, timeout := 150, max_retries := 2 }
    serpapi_key := serpapi }

/-- The browser constructed inside `create_agent` (src/run.py line 185). -/
def browser (serpapi : Option String) : SimpleTextBrowser :=
  { config := BROWSER_CONFIG serpapi }

end Root

namespace ODR

/-- `BROWSER_CONFIG` of src/examples/open_deep_research/run.py lines 82-91,
textually identical to the root variant. -/
def BROWSER_CONFIG (serpapi : Option String) : BrowserConfig :=
  { viewport_size := 5120
    downloads_folder := "downloads_folder"
    request_kwargs := { user_agent := USER_AGENT, timeout := 150, max_retries := 2 }
    serpapi_key := serpapi }

/-- The browser constructed inside the singleton `create_agent`
(src/examples/open_deep_research/run.py line 153). -/
def browser (serpapi : Option String) : SimpleTextBrowser :=
  { config := BROWSER_CONFIG serpapi }

end ODR

/-! ## Startup (module import followed by main) -/

/-- Errors surfaced at startup. `environmentError` embeds the Python
`EnvironmentError` raised by the open_deep_research variant when the
Hugging Face token is absent. -/
inductive PyError where
  | environmentError
deriving DecidableEq, Repr

/-- Observable startup events, in program order. -/
inductive StartupEvent where
  | loggerSetup
  | installCache
  | loadDotenv
  | loginCall
  | logWarningNoToken
  | makedirs
  | agentConstruction
deriving DecidableEq, Repr

/-- Events that perform a network call: the Hugging Face login and the
agent construction (which connects to the MCP tool server). -/
def isNetworkEvent : StartupEvent → Bool
  | StartupEvent.loginCall => true
  | StartupEvent.agentConstruction => true
  | _ => false

namespace Root

/-- Startup of src/run.py through agent construction: logging setup,
`load_dotenv`, then the token check of lines 67-72, which logs a warning
and proceeds when `HF_TOKEN` is absent; `os.makedirs` and, in `main`,
`create_agent`. Returns the events performed and the raised error, if
any. -/
def startup (hfToken : Option String) : List StartupEvent × Option PyError :=
  match hfToken with
  | some _ =>
      ([StartupEvent.loggerSetup, StartupEvent.loadDotenv, StartupEvent.loginCall,
        StartupEvent.makedirs, StartupEvent.agentConstruction], none)
  | none =>
      ([StartupEvent.loggerSetup, StartupEvent.loadDotenv,
        StartupEvent.logWarningNoToken, StartupEvent.makedirs,
        StartupEvent.agentConstruction], none)

end Root

namespace ODR

/-- Startup of src/examples/open_deep_research/run.py through agent
construction: `install_cache`, `load_dotenv`, then the token check of
lines 45-49, which raises `EnvironmentError` when `HF_TOKEN` is absent,
stopping the module before any network call; otherwise login, makedirs
and, in `main`, the singleton `create_agent`. -/
def startup (hfToken : Option String) : List StartupEvent × Option PyError :=
  match hfToken with
  | some _ =>
      ([StartupEvent.installCache, StartupEvent.loadDotenv, StartupEvent.loginCall,
        StartupEvent.makedirs, StartupEvent.agentConstruction], none)
  | none =>
      ([StartupEvent.installCache, StartupEvent.loadDotenv],
       some PyError.environmentError)

end ODR

/-! ## Environment variables and set_keys (src/app.py lines 24-31) -/

/-- The process environment: a partial map from variable names to values. -/
abbrev Env := String → Option String

/-- One `os.environ[k] = v` assignment. -/
def envSet (env : Env) (k v : String) : Env :=
  fun q => if q = k then some v else env q

/-- The confirmation message returned by `set_keys`. -/
def keysUpdatedMessage : String :=
  "API keys have been updated successfully! Please restart the agent for changes to take effect."

/-- `set_keys` of src/app.py lines 24-31: three environment assignments in
order, then the confirmation message. -/
def set_keys (env : Env) (openai_api_key serper_api_key hf_token : String) :
    Env × String :=
  (envSet (envSet (envSet env "OPENAI_API_KEY" openai_api_key)
      "SERPER_API_KEY" serper_api_key) "HF_TOKEN" hf_token,
   keysUpdatedMessage)

/-! ## Concurrent invocation wrapper and the two mains -/

/-- A resolved future holding the outcome of its task. -/
structure Future (α : Type) where
  outcome : Except PyError α
deriving Repr

/-- Modelled from the spec: the repository submits tasks to
`ThreadPoolExecutor(max_workers=4)` and to the asyncio default executor,
whose implementations are outside this repository. Per the spec, submitting
runs the task on a worker and yields a future resolving to its result or
its raised exception. For a single submitted task this is the task outcome
itself. -/
def submitTask (_maxWorkers : Nat) (task : Unit → Except PyError α) : Future α :=
  ⟨task ()⟩

/-- Modelled from the spec: `future.result()` blocks until resolution and
returns the value or re-raises the stored exception. -/
def Future.result (f : Future α) : Except PyError α :=
  f.outcome

namespace ODR

/-- `async_run_agent` of src/examples/open_deep_research/run.py lines
209-214: awaits `loop.run_in_executor(None, agent.run, question)`. The
agent run loop is external, so it is passed as a function. -/
def async_run_agent (runAgent : AgentHandle → String → Except PyError String)
    (agent : AgentHandle) (question : String) : Except PyError String :=
  (submitTask 0 (fun _ => runAgent agent question)).result

end ODR

/-- Observable events of `main`. -/
inductive MainEvent where
  | createAgentCall (model_id : String)
  | runCall (question : String)
  | printLine (s : String)
deriving DecidableEq, Repr

/-- Lines printed to standard output, in order. -/
def printedLines (evs : List MainEvent) : List String :=
  evs.foldr
    (fun e acc =>
      match e with
      | MainEvent.printLine s => s :: acc
      | _ => acc) []

/-- How many times the agent run is invoked. -/
def countRunCalls (evs : List MainEvent) : Nat :=
  (evs.filter fun e =>
    match e with
    | MainEvent.runCall _ => true
    | _ => false).length

namespace Root

/-- `main` of src/run.py lines 243-252: parse args, `create_agent`, run the
agent directly, print `Got this answer: {answer}`. The external run loop is
a function argument; the answer it returns feeds the printed line. -/
def main_events (runAgent : AgentHandle → String → String)
    (question model_id : String) : List MainEvent :=
  [MainEvent.createAgentCall model_id,
   MainEvent.runCall question,
   MainEvent.printLine
     ("Got this answer: " ++ runAgent (create_agent 0 model_id).1 question)]

end Root

namespace ODR

/-- `main` of src/examples/open_deep_research/run.py lines 218-230: parse
args, singleton `create_agent`, submit `agent.run` to a pool of 4 workers,
wait for the future, print `Got this answer: {answer}`. If the run raises,
the exception propagates out of `future.result()` and nothing is printed. -/
def main_events (runAgent : AgentHandle → String → Except PyError String)
    (question model_id : String) : List MainEvent × Option PyError :=
  match (submitTask 4
      (fun _ => runAgent (create_agent initState model_id).1 question)).result with
  | Except.ok answer =>
      ([MainEvent.createAgentCall model_id, MainEvent.runCall question,
        MainEvent.printLine ("Got this answer: " ++ answer)], none)
  | Except.error e =>
      ([MainEvent.createAgentCall model_id, MainEvent.runCall question], some e)

end ODR

/-- A concrete handle used to instantiate hypotheses at witnesses. -/
def sampleHandle : AgentHandle := build_agent 1 0 "o1"

/-- Stub run function returning the answer 4. -/
def stubRun : AgentHandle → String → String := fun _ _ => "4"

/-- Stub fallible run function returning the answer 4. -/
def stubRunE : AgentHandle → String → Except PyError String :=
  fun _ _ => Except.ok "4"

/-- The empty environment, used to instantiate witnesses. -/
def emptyEnv : Env := fun _ => none

/-! ## Theorems -/

/-- Once the singleton holds a handle, any sequence of further calls
returns that handle every time and leaves the state untouched. -/
theorem runCalls_of_some (st : ODR.SingletonState) (a : AgentHandle)
    (h : st.agent_instance = some a) (mids : List String) :
    ODR.runCalls st mids = (mids.map fun _ => a, st) := by
  induction mids with
  | nil => simp [ODR.runCalls]
  | cons m rest ih => simp [ODR.runCalls, ODR.create_agent, h, ih]

/-- Claim C1: once a first call to the singleton `create_agent` has
constructed the agent handle, every later call returns that identical
handle and performs no reconfiguration, whatever model_id it passes: the
whole later call sequence returns the stored handle at each position and
leaves the singleton state unchanged. -/
theorem singleton_reuse_ignores_model_id (st : ODR.SingletonState)
    (a : AgentHandle) (h : st.agent_instance = some a) (mids : List String) :
    ODR.runCalls st mids = (mids.map fun _ => a, st) :=
  runCalls_of_some st a h mids

/-- Witness for C1 at a concrete post-construction state and two later
model identifiers. -/
theorem singleton_reuse_ignores_model_id_witness :
    ODR.runCalls { agent_instance := some sampleHandle, nextOid := 1 }
        ["gpt-4o", "o3"] =
      ([sampleHandle, sampleHandle],
       { agent_instance := some sampleHandle, nextOid := 1 }) := by
  simpa using singleton_reuse_ignores_model_id
    { agent_instance := some sampleHandle, nextOid := 1 }
    sampleHandle rfl ["gpt-4o", "o3"]

/-- Claim C2 counterexample: it is not the case that every buffer access
of `ListHandler.emit` and of the drain-and-clear in `get_answer` happens
under the lock — the `agent_logs.clear()` at the start of `get_answer`
runs with the lock free. -/
theorem log_lock_counterexample :
    ¬ (allAccessesLocked emit_steps = true ∧
       allAccessesLocked get_answer_steps = true) := by
  decide

/-- Claim C2, amended: `emit` appends under the lock, and the copy in
`get_answer` is performed under the lock, but the buffer clear at the start
of each UI-driven question is performed without holding the lock. -/
theorem log_lock_discipline :
    lockedAccesses emit_steps = [(LogStep.appendBuf, true)] ∧
    lockedAccesses get_answer_steps =
      [(LogStep.clearBuf, false), (LogStep.copyBuf, true)] := by
  decide

/-- Claim C3: after the clear, the buffer is empty; one subsequent `emit`
leaves exactly the one new formatted line, and that line is the only
content the next drain sees. -/
theorem drain_then_record (b : List String) (r : LogRecord) :
    clearLogs b = [] ∧
    emit (clearLogs b) r = [formatRecord r] ∧
    joinLogs (emit (clearLogs b) r) = formatRecord r :=
  ⟨rfl, rfl, rfl⟩

/-- Claim C4 counterexample: in the src/run.py variant a startup with the
Hugging Face token absent raises nothing and proceeds to agent
construction, refuting the claim that every such startup raises a
configuration error before construction. -/
theorem root_startup_no_token_counterexample :
    ¬ ((Root.startup none).2 = some PyError.environmentError ∧
       StartupEvent.agentConstruction ∉ (Root.startup none).1) := by
  decide

/-- Claim C4, amended: in the open_deep_research variant a startup with
the token absent raises an EnvironmentError before any network call and
never reaches agent construction, while the src/run.py variant logs a
warning and proceeds, without logging in, to agent construction. -/
theorem startup_missing_token_behavior :
    ODR.startup none =
      ([StartupEvent.installCache, StartupEvent.loadDotenv],
       some PyError.environmentError) ∧
    ((ODR.startup none).1.all fun e => !isNetworkEvent e) = true ∧
    StartupEvent.agentConstruction ∉ (ODR.startup none).1 ∧
    (Root.startup none).2 = none ∧
    StartupEvent.loginCall ∉ (Root.startup none).1 ∧
    StartupEvent.agentConstruction ∈ (Root.startup none).1 := by
  decide

/-- Claim C5: for every triple of non-empty strings, `set_keys` stores the
three values under OPENAI_API_KEY, SERPER_API_KEY and HF_TOKEN and returns
the literal confirmation message. -/
theorem set_keys_updates_env (env : Env) (o s h : String)
    (_ho : o ≠ "") (_hs : s ≠ "") (_hh : h ≠ "") :
    (set_keys env o s h).1 "OPENAI_API_KEY" = some o ∧
    (set_keys env o s h).1 "SERPER_API_KEY" = some s ∧
    (set_keys env o s h).1 "HF_TOKEN" = some h ∧
    (set_keys env o s h).2 =
      "API keys have been updated successfully! Please restart the agent for changes to take effect." := by
  refine ⟨?_, ?_, ?_, rfl⟩ <;> simp [set_keys, envSet]

/-- Witness for C5 at a concrete non-empty triple over the empty
environment. -/
theorem set_keys_updates_env_witness :
    (set_keys emptyEnv "sk-a" "serp-b" "hf-c").1 "OPENAI_API_KEY" = some "sk-a" ∧
    (set_keys emptyEnv "sk-a" "serp-b" "hf-c").1 "SERPER_API_KEY" = some "serp-b" ∧
    (set_keys emptyEnv "sk-a" "serp-b" "hf-c").1 "HF_TOKEN" = some "hf-c" ∧
    (set_keys emptyEnv "sk-a" "serp-b" "hf-c").2 =
      "API keys have been updated successfully! Please restart the agent for changes to take effect." :=
  set_keys_updates_env emptyEnv "sk-a" "serp-b" "hf-c"
    (by decide) (by decide) (by decide)

/-- Claim C6: whenever the agent run returns answer A, both mains print
exactly the line `Got this answer: ` followed by A. -/
theorem cli_prints_answer (runR : AgentHandle → String → String)
    (runO : AgentHandle → String → Except PyError String) (q mid A : String)
    (hR : runR (Root.create_agent 0 mid).1 q = A)
    (hO : runO (ODR.create_agent ODR.initState mid).1 q = Except.ok A) :
    printedLines (Root.main_events runR q mid) = ["Got this answer: " ++ A] ∧
    printedLines (ODR.main_events runO q mid).1 = ["Got this answer: " ++ A] := by
  constructor
  · simp [Root.main_events, printedLines, hR]
  · simp [ODR.main_events, submitTask, Future.result, hO, printedLines]

/-- Witness for C6: question 2+2? with a stub run returning 4 prints
exactly `Got this answer: 4` in both variants. -/
theorem cli_prints_answer_witness :
    printedLines (Root.main_events stubRun "2+2?" "o1") =
      ["Got this answer: 4"] ∧
    printedLines (ODR.main_events stubRunE "2+2?" "o1").1 =
      ["Got this answer: 4"] :=
  cli_prints_answer stubRun stubRunE "2+2?" "o1" "4" rfl rfl

/-- Claim C7: submitting the run to the four-worker pool and waiting on
the future, or going through `async_run_agent`, yields exactly the direct
outcome of the run, values and raised exceptions alike. -/
theorem pool_run_equals_direct
    (runAgent : AgentHandle → String → Except PyError String)
    (agent : AgentHandle) (q : String) :
    (submitTask 4 (fun _ => runAgent agent q)).result = runAgent agent q ∧
    ODR.async_run_agent runAgent agent q = runAgent agent q :=
  ⟨rfl, rfl⟩

/-- Claim C8: both variants construct the browser tool adapter with a
request configuration fixing max_retries at 2 and the timeout at 150, and
neither main wrapper retries: the run is invoked exactly once. -/
theorem browser_retry_config_fixed (serpR serpO : Option String)
    (runR : AgentHandle → String → String)
    (runO : AgentHandle → String → Except PyError String) (q mid : String) :
    (Root.browser serpR).config.request_kwargs.max_retries = 2 ∧
    (Root.browser serpR).config.request_kwargs.timeout = 150 ∧
    (ODR.browser serpO).config.request_kwargs.max_retries = 2 ∧
    (ODR.browser serpO).config.request_kwargs.timeout = 150 ∧
    countRunCalls (Root.main_events runR q mid) = 1 ∧
    countRunCalls (ODR.main_events runO q mid).1 = 1 := by
  refine ⟨rfl, rfl, rfl, rfl, rfl, ?_⟩
  cases h : runO (ODR.create_agent ODR.initState mid).1 q <;>
    simp [ODR.main_events, submitTask, Future.result, h, countRunCalls]

/-- Claim C9: the non-singleton `create_agent` of src/run.py returns a
fresh handle each call — two successive calls yield distinct handles and
the second call honors its model_id — while the singleton variant
allocates at most one handle over any call sequence from process start. -/
theorem fresh_handles_vs_singleton (n : Nat) (mid1 mid2 : String) :
    (Root.create_agent n mid1).1 ≠
      (Root.create_agent (Root.create_agent n mid1).2 mid2).1 ∧
    (Root.create_agent (Root.create_agent n mid1).2 mid2).1.modelId = mid2 ∧
    ∀ mids : List String, (ODR.runCalls ODR.initState mids).2.nextOid ≤ 1 := by
  refine ⟨?_, rfl, ?_⟩
  · intro hEq
    have h2 : n = n + 1 := congrArg AgentHandle.oid hEq
    omega
  · intro mids
    cases mids with
    | nil => simp [ODR.runCalls, ODR.initState]
    | cons m rest =>
        have h := runCalls_of_some
          { agent_instance := some (build_agent 1 0 m), nextOid := 1 }
          (build_agent 1 0 m) rfl rest
        simp [ODR.runCalls, ODR.create_agent, ODR.initState, h]

/-- Claim C10: `set_keys` leaves every environment variable other than the
three keys unchanged, performs no validation, and for any triple —
including empty strings — stores the values verbatim and returns the same
confirmation message. -/
theorem set_keys_frame (env : Env) (o s h k : String)
    (h1 : k ≠ "OPENAI_API_KEY") (h2 : k ≠ "SERPER_API_KEY")
    (h3 : k ≠ "HF_TOKEN") :
    (set_keys env o s h).1 k = env k ∧
    (set_keys env o s h).1 "OPENAI_API_KEY" = some o ∧
    (set_keys env o s h).1 "SERPER_API_KEY" = some s ∧
    (set_keys env o s h).1 "HF_TOKEN" = some h ∧
    (set_keys env o s h).2 = keysUpdatedMessage := by
  refine ⟨?_, ?_, ?_, ?_, rfl⟩ <;> simp [set_keys, envSet, h1, h2, h3]

/-- Witness for C10 at the empty-string triple and the untouched variable
PATH. -/
theorem set_keys_frame_witness :
    (set_keys emptyEnv "" "" "").1 "PATH" = emptyEnv "PATH" ∧
    (set_keys emptyEnv "" "" "").1 "OPENAI_API_KEY" = some "" ∧
    (set_keys emptyEnv "" "" "").1 "SERPER_API_KEY" = some "" ∧
    (set_keys emptyEnv "" "" "").1 "HF_TOKEN" = some "" ∧
    (set_keys emptyEnv "" "" "").2 = keysUpdatedMessage :=
  set_keys_frame emptyEnv "" "" "" "PATH"
    (by decide) (by decide) (by decide)
